import Mathlib

/-!
Verification development for the SpiderFoot HTTP API layer (`src/api.py`).

The file shallowly embeds the pure/observable core of the handlers under
scrutiny: the relative-timestamp reconstruction of `scan_history`
(`format_relative_timestamp`), the result projections of
`scan_event_results` and `scan_history`, and the lifecycle handlers
`start_scan` / `stop_scan` / `startSpiderFootScanner`.  Stateful behaviour
(store writes, process spawns) is embedded as explicit traces: each handler
returns the list of store calls it performed and the list of worker
processes it spawned, together with its HTTP-level result.

Modelling scope, stated once here:
* Python strings are modelled over the ASCII fragment the stored encodings
  use; `int()` is modelled on ASCII digit strings (with Python's underscore
  grouping rule), not on non-ASCII decimal digits.
* `datetime` values are modelled as whole seconds on the proleptic
  Gregorian calendar (Python's `datetime` range, year 1 to 9999); adding a
  `timedelta` out of range raises `OverflowError` in Python, modelled as
  `none` (an uncaught exception, since the source catches only
  `ValueError`).
* `strftime "%Y-%m-%d %H:%M:%S"` is modelled with a 4-digit-padded year;
  every concrete evaluation in this file stays in years where platforms
  agree on that rendering.
* The external store adapter (`spiderfoot.db`) and engine helpers are not
  under `src/`; per the design document they are interfaces.  Store calls
  are therefore embedded as recorded call argument tuples
  (`scanInstanceCreate`, `scanInstanceSet`), and the external classifier
  `SpiderFootHelpers.targetTypeFromString` is a parameter
  `String → Option String` (the design document describes classification as
  an operation that may fail to determine a type; `none` models that
  outcome).  Store operations themselves are modelled as succeeding; their
  own failure paths (all mapped to 500) are not the subject of any claim
  below.
-/

set_option linter.unusedVariables false

/-! ## Python string primitives -/

/-- Characters `str.split()` (and `int()`) treat as whitespace; ASCII fragment
of CPython's definition: space, tab, newline, carriage return, vertical tab,
form feed. -/
def pyIsSpace (c : Char) : Bool :=
  c = ' ' || c = '\t' || c = '\n' || c = '\r' || c = '\x0b' || c = '\x0c'

/-- Strip leading and trailing whitespace, as `int()` does before parsing. -/
def pyStrip (s : String) : String :=
  String.mk (((s.data.dropWhile pyIsSpace).reverse.dropWhile pyIsSpace).reverse)

/-- Core of `str.split()` with no separator: split on runs of whitespace,
discarding empty tokens.  `acc` holds the current token, reversed. -/
def splitWsGo : List Char → List Char → List (List Char)
  | [], [] => []
  | [], acc => [acc.reverse]
  | c :: cs, acc =>
    if pyIsSpace c then
      match acc with
      | [] => splitWsGo cs []
      | _ => acc.reverse :: splitWsGo cs []
    else splitWsGo cs (c :: acc)

/-- Python `s.split()` (no argument): whitespace runs as separators, no empty
tokens. -/
def pySplitWs (s : String) : List String :=
  (splitWsGo s.data []).map String.mk

/-- Value of an ASCII digit character. -/
def digitVal (c : Char) : Nat := c.toNat - 48

/-- Digits of an `int()` literal after the first digit: Python allows a
single underscore only between two digits. -/
def pyDigitsRest (acc : Nat) : List Char → Option Nat
  | [] => some acc
  | '_' :: c :: cs =>
    if c.isDigit then pyDigitsRest (10 * acc + digitVal c) cs else none
  | c :: cs =>
    if c.isDigit then pyDigitsRest (10 * acc + digitVal c) cs else none

/-- Nonempty digit run with underscore grouping, as accepted by `int()`
after the optional sign. -/
def pyDigits : List Char → Option Nat
  | c :: cs => if c.isDigit then pyDigitsRest (digitVal c) cs else none
  | [] => none

/-- Model of CPython `int(s)` on ASCII strings: strip whitespace, optional
sign, nonempty digit run (underscores allowed between digits).  `none`
models the `ValueError` Python raises on anything else. -/
def pyInt (s : String) : Option Int :=
  match (pyStrip s).data with
  | '+' :: rest => (pyDigits rest).map (fun n => (n : Int))
  | '-' :: rest => (pyDigits rest).map (fun n => -(n : Int))
  | rest => (pyDigits rest).map (fun n => (n : Int))

/-- Model of `a, b = map(int, tokens)` in the source: succeeds only when
`tokens` has exactly two elements and both parse as integers; every failure
mode (wrong arity, non-numeric element) raises `ValueError` in Python,
modelled as `none`. -/
def pyPairInt : List String → Option (Int × Int)
  | [a, b] =>
    match pyInt a, pyInt b with
    | some x, some y => some (x, y)
    | _, _ => none
  | _ => none

/-- Core of `str.split(":")`: split on every colon, keeping empty tokens
(Python keeps them when a separator is given). -/
def splitColonGo : List Char → List Char → List (List Char)
  | [], acc => [acc.reverse]
  | c :: cs, acc =>
    if c = ':' then acc.reverse :: splitColonGo cs []
    else splitColonGo cs (c :: acc)

/-- Python `s.split(":")`: colon-separated tokens, empty tokens kept. -/
def pySplitColon (s : String) : List String :=
  (splitColonGo s.data []).map String.mk

/-! ## Python datetime model -/

/-- Seconds-since-epoch of `datetime.min` (0001-01-01 00:00:00). -/
def pyDatetimeMinSec : Int := -62135596800

/-- Seconds-since-epoch of `datetime.max` whole seconds
(9999-12-31 23:59:59). -/
def pyDatetimeMaxSec : Int := 253402300799

/-- Model of `start + timedelta(days=day, hours=hour, minutes=minute)` on a
naive `datetime` represented as whole seconds since the Unix epoch.  Python
raises `OverflowError` (uncaught in the source, which catches only
`ValueError`) when the sum leaves the `datetime` range; that is `none`. -/
def pyDatetimeAdd (start day hour minute : Int) : Option Int :=
  let t := start + day * 86400 + hour * 3600 + minute * 60
  if pyDatetimeMinSec ≤ t ∧ t ≤ pyDatetimeMaxSec then some t else none

/-- Proleptic-Gregorian civil date from a day number (days since
1970-01-01), following the standard era decomposition used by calendar
libraries.  Returns `(year, month, day)`. -/
def civilFromDays (z0 : Int) : Int × Nat × Nat :=
  let z := z0 + 719468
  let era : Int := z.fdiv 146097
  let doe : Nat := (z - era * 146097).toNat
  let yoe : Nat := (doe - doe / 1460 + doe / 36524 - doe / 146096) / 365
  let doy : Nat := doe - (365 * yoe + yoe / 4 - yoe / 100)
  let mp : Nat := (5 * doy + 2) / 153
  let d : Nat := doy - (153 * mp + 2) / 5 + 1
  let m : Nat := if mp < 10 then mp + 3 else mp - 9
  let y : Int := (yoe : Int) + era * 400 + (if m ≤ 2 then 1 else 0)
  (y, m, d)

/-- Zero-pad a number to two digits. -/
def pad2 (n : Nat) : String :=
  if n < 10 then "0" ++ toString n else toString n

/-- Zero-pad a number to four digits. -/
def pad4 (n : Nat) : String :=
  if n < 10 then "000" ++ toString n
  else if n < 100 then "00" ++ toString n
  else if n < 1000 then "0" ++ toString n
  else toString n

/-- Model of `datetime.strftime("%Y-%m-%d %H:%M:%S")` on a whole-second
naive datetime. -/
def pyStrftime (t : Int) : String :=
  let days := t.fdiv 86400
  let sod := (t.fmod 86400).toNat
  let ymd := civilFromDays days
  pad4 ymd.1.toNat ++ "-" ++ pad2 ymd.2.1 ++ "-" ++ pad2 ymd.2.2 ++ " " ++
    pad2 (sod / 3600) ++ ":" ++ pad2 (sod % 3600 / 60) ++ ":" ++ pad2 (sod % 60)

/-! ## format_relative_timestamp (src/api.py lines 258-268) -/

/-- Embedding of `format_relative_timestamp(ts, start_time)` from
`scan_history`.  The source does

  hour, minute, day = ts.split()
  hour, minute = map(int, hour.split(":"))
  day = int(day)
  relative_time = start_time + timedelta(days=day, hours=hour, minutes=minute)
  return relative_time.strftime("%Y-%m-%d %H:%M:%S")

with `except ValueError: return str(ts)`.  The parse steps of the `try`
block are staged as `relFields`; the second whitespace token (`minute`) is
bound by the unpack and immediately overwritten by the colon split of the
first token, so only its presence matters.

The parse chain of the `try` block: three-way unpack of `ts.split()` (a
`ValueError` unless there are exactly three whitespace tokens), the two-way
unpack `map(int, hour.split(":"))`, then `int(day)` on the third token.
`none` is the `ValueError` that the handler's `except ValueError` catches. -/
def relFields (ts : String) : Option (Int × Int × Int) :=
  match pySplitWs ts with
  | [hourTok, _minuteTok, dayTok] =>
    match pyPairInt (pySplitColon hourTok), pyInt dayTok with
    | some hm, some day => some (hm.1, hm.2, day)
    | _, _ => none
  | _ => none

/-- Embedding of `format_relative_timestamp(ts, start_time)`: on a parsed
`(hour, minute, day)` triple it renders `start_time + timedelta(days=day,
hours=hour, minutes=minute)`; on a `ValueError` from the parse chain it
returns `str(ts)`, i.e. the input unchanged.  `none` models an uncaught
exception (`OverflowError` from the `timedelta` addition), which the
surrounding handler turns into a 500. -/
def format_relative_timestamp (ts : String) (start_time : Int) : Option String :=
  match relFields ts with
  | some hmd =>
    match pyDatetimeAdd start_time hmd.2.2 hmd.1 hmd.2.1 with
    | some t => some (pyStrftime t)
    | none => none
  | none => some ts

/-! ## Scan lifecycle handlers (src/api.py lines 183-233) -/

/-- Python exceptions the embedded handlers raise. `http` is FastAPI's
`HTTPException(status_code, detail)`; its `str()` is "code: detail". -/
inductive PyExc where
  | http (code : Nat) (detail : String)
  | valueError (msg : String)
deriving DecidableEq

/-- Model of Python `str(e)` for the exceptions above (starlette renders an
`HTTPException` as "status_code: detail"; `str(ValueError(m))` is `m`). -/
def pyExcStr : PyExc → String
  | PyExc.http code detail => toString code ++ ": " ++ detail
  | PyExc.valueError msg => msg

/-- Transport-level error as delivered by FastAPI: status code plus detail. -/
structure HTTPError where
  status_code : Nat
  detail : String
deriving DecidableEq

/-- Scan record tuple as returned by the store's `scanInstanceGet`:
`(name, seed_target, created, started, ended, status)`.  The handlers read
index 3 (`started`) and index 5 (`status`). -/
structure ScanTuple where
  name : String
  seed_target : String
  created : Int
  started : Int
  ended : Int
  status : String
deriving DecidableEq

/-- Recorded arguments of one `scanInstanceSet(instanceId, started=None,
ended=None, status=None)` store call; `none` for an argument the caller did
not pass.  The store adapter is external (design document section 4.3): its
`setStatus` operation is specified to write exactly the fields it is
handed, so the call record is the write. -/
structure ScanSetCall where
  scanId : String
  started : Option Int
  ended : Option Int
  status : Option String
deriving DecidableEq

/-- Store writes performed and HTTP result of one `stop_scan` request,
before the outer `except Exception` wrapper. -/
structure StopBodyOutcome where
  writes : List ScanSetCall
  result : Except PyExc String

/-- Store writes performed and the transport-level result of `stop_scan`. -/
structure StopOutcome where
  writes : List ScanSetCall
  result : Except HTTPError String

/-- Body of `stop_scan` (inside its `try`): read the scan, raise
`HTTPException(400, "Scan is not running.")` when the status is terminal,
otherwise call `scanInstanceSet(id, status="ABORTED")` and return the
success message.  `scan` is the tuple `scanInstanceGet(id)` returned (the
unknown-id path, where Python raises a `TypeError` subscripting `None`, is
outside every claim and not modelled). -/
def stop_scan_body (id : String) (scan : ScanTuple) : StopBodyOutcome :=
  if scan.status ∈ (["FINISHED", "ABORTED", "ERROR-FAILED"] : List String) then
    { writes := [], result := Except.error (PyExc.http 400 "Scan is not running.") }
  else
    { writes := [{ scanId := id, started := none, ended := none, status := some "ABORTED" }],
      result := Except.ok "Scan aborted successfully" }

/-- Full `stop_scan` handler: the body runs inside
`except Exception as e: raise HTTPException(status_code=500, detail=str(e))`,
so every exception the body raises — including its own
`HTTPException(400, ...)` — is re-raised as a 500 whose detail is `str(e)`. -/
def stop_scan (id : String) (scan : ScanTuple) : StopOutcome :=
  let b := stop_scan_body id scan
  { writes := b.writes,
    result :=
      match b.result with
      | Except.ok msg => Except.ok msg
      | Except.error e => Except.error { status_code := 500, detail := pyExcStr e } }

/-- True when a transport result is a 4xx client error (the class the design
document assigns to validation / not-found / invalid-state failures). -/
def isClientError (r : Except HTTPError String) : Bool :=
  match r with
  | Except.error e => 400 ≤ e.status_code && e.status_code < 500
  | Except.ok _ => false

/-- Argument tuple handed to the spawned worker process:
`mp.Process(target=startSpiderFootScanner, args=(scanId, scanname,
scantarget, targetType, [], sf.opts))`. -/
structure SpawnArgs where
  scanId : String
  scanName : String
  scanTarget : String
  targetType : Option String
  moduleList : List String
  globalOpts : List (String × String)
deriving DecidableEq

/-- Store creates, process spawns and HTTP result of one `start_scan`
request. -/
structure StartOutcome where
  creates : List (String × String × String)
  spawns : List SpawnArgs
  result : Except HTTPError String

/-- Embedding of the `start_scan` handler: generate an id (passed in, since
`SpiderFootHelpers.genScanInstanceId` is an external helper), classify the
target with the external `targetTypeFromString` (a classifier that may not
determine a type, modelled as `Option`), persist the record with
`scanInstanceCreate(scanId, scanname, scantarget)`, spawn the worker with an
empty module list and `sf.opts`, and return the id.  No branch of the
handler inspects the classification result or the options, so no failure
path exists here when the store and the spawn succeed (their own failures
map to 500 and are outside the claims below). -/
def start_scan (scanname scantarget scanId : String)
    (targetTypeFromString : String → Option String)
    (sfOpts : List (String × String)) : StartOutcome :=
  let targetType := targetTypeFromString scantarget
  { creates := [(scanId, scanname, scantarget)],
    spawns := [{ scanId := scanId, scanName := scanname, scanTarget := scantarget,
                 targetType := targetType, moduleList := [], globalOpts := sfOpts }],
    result := Except.ok scanId }

/-- Embedding of the worker entry point `startSpiderFootScanner`: it first
raises `ValueError("globalOpts is empty")` when the options dict is falsy
(empty), otherwise runs `sf.runModule(module)` for each module in order.
The first component is the trace of modules run; the second is the
exception raised, if any. -/
def startSpiderFootScanner (scanId scanName scanTarget : String)
    (targetType : Option String) (moduleList : List String)
    (globalOpts : List (String × String)) : List String × Option PyExc :=
  if globalOpts.isEmpty then
    ([], some (PyExc.valueError "globalOpts is empty"))
  else
    (moduleList, none)

/-! ## Result formatting (src/api.py lines 161-179 and 271-280) -/

/-- Named record built by `scan_event_results` from one raw result row. -/
structure EventResult (α : Type) where
  type : α
  module : α
  data : α
  source_event : α
  source_event_hash : α
  confidence : α
  visibility : α
  risk : α
  false_positive : α
  last_seen : α
  source_data : α
  source_module : α
deriving DecidableEq

/-- Projection of one raw row `result` into the named record, reading
`result[0]` through `result[11]` exactly as the source comprehension does;
`none` models the `IndexError` a short row would raise (mapped to 500 by
the handler). -/
def formatEventRow {α : Type} (result : List α) : Option (EventResult α) := do
  let t ← result[0]?
  let m ← result[1]?
  let d ← result[2]?
  let se ← result[3]?
  let seh ← result[4]?
  let c ← result[5]?
  let v ← result[6]?
  let r ← result[7]?
  let fp ← result[8]?
  let ls ← result[9]?
  let sd ← result[10]?
  let sm ← result[11]?
  pure { type := t, module := m, data := d, source_event := se,
         source_event_hash := seh, confidence := c, visibility := v, risk := r,
         false_positive := fp, last_seen := ls, source_data := sd,
         source_module := sm }

/-- Formatting core of the `scan_event_results` handler: the list
comprehension over `raw_results` (rows already fetched from the store). -/
def scan_event_results {α : Type} (raw_results : List (List α)) :
    Option (List (EventResult α)) :=
  raw_results.mapM formatEventRow

/-- One formatted history point of the `scan_history` handler. -/
structure HistoryItem where
  timestamp : String
  event_type : String
  count : Int
deriving DecidableEq

/-- Formatting core of the `scan_history` handler: the comprehension over
`raw_history`, applying `format_relative_timestamp(item[0],
scan_start_time)` to each `(timestamp, event_type, count)` row; `none`
models an uncaught exception from the timestamp reconstruction. -/
def scan_history (raw_history : List (String × String × Int))
    (scan_start_time : Int) : Option (List HistoryItem) :=
  raw_history.mapM (fun item =>
    (format_relative_timestamp item.1 scan_start_time).map
      (fun ts => { timestamp := ts, event_type := item.2.1, count := item.2.2 }))

/-- Positional field-for-field relation between a raw row and a formatted
record: the record's twelve fields are exactly the row's entries 0-11. -/
def rowView {α : Type} (r : List α) (v : EventResult α) : Prop :=
  r[0]? = some v.type ∧ r[1]? = some v.module ∧ r[2]? = some v.data ∧
  r[3]? = some v.source_event ∧ r[4]? = some v.source_event_hash ∧
  r[5]? = some v.confidence ∧ r[6]? = some v.visibility ∧
  r[7]? = some v.risk ∧ r[8]? = some v.false_positive ∧
  r[9]? = some v.last_seen ∧ r[10]? = some v.source_data ∧
  r[11]? = some v.source_module

/-- True when some performed store call carries an `ended` timestamp. -/
def stampsEnded (ws : List ScanSetCall) : Bool :=
  ws.any (fun w => w.ended.isSome)

/-! ## Concrete fixtures -/

/-- Concrete scan record in the terminal state `FINISHED`. -/
def scanFinished : ScanTuple :=
  { name := "scan-a", seed_target := "example.com", created := 1704067200,
    started := 1704067200, ended := 1704070800, status := "FINISHED" }

/-- Concrete scan record in the terminal state `ABORTED`. -/
def scanAborted : ScanTuple :=
  { name := "scan-b", seed_target := "example.com", created := 1704067200,
    started := 1704067200, ended := 1704070800, status := "ABORTED" }

/-- Concrete scan record in the terminal state `ERROR-FAILED`. -/
def scanErrorFailed : ScanTuple :=
  { name := "scan-c", seed_target := "example.com", created := 1704067200,
    started := 1704067200, ended := 1704070800, status := "ERROR-FAILED" }

/-- Concrete scan record in the active state `RUNNING`. -/
def scanRunning : ScanTuple :=
  { name := "scan-d", seed_target := "example.com", created := 1704067200,
    started := 1704067200, ended := 0, status := "RUNNING" }

/-- Classifier that cannot determine a target type for any value. -/
def classifyNone : String → Option String := fun _ => none

/-- Classifier that recognises every value as an internet name. -/
def classifyDomain : String → Option String := fun _ => some "INTERNET_NAME"

/-- A well-formed 12-field raw result row. -/
def sampleRow : List String :=
  ["IP_ADDRESS", "sfp_dnsresolve", "1.2.3.4", "evt", "hash", "100", "1",
   "0", "0", "0", "example.com", "sfp_spider"]

/-! ## Claim C1 -/

/-- C1: the claim says every well-formed two-token encoding "HH:MM D" is
reconstructed to `scanStart + D days + HH hours + MM minutes`.  The code
unpacks `ts.split()` into three variables, so the documented two-token
shape always raises `ValueError` and takes the fallback: at
`scanStart = 2024-01-01T00:00:00` (epoch 1704067200) the encoding
"02:15 3" comes back unchanged instead of as "2024-01-04 02:15:00"
(which is what the claimed arithmetic, also evaluated here, renders to). -/
theorem C1_two_token_fallback_eval :
    format_relative_timestamp "02:15 3" 1704067200 = some "02:15 3" ∧
    pyStrftime (1704067200 + 3 * 86400 + 2 * 3600 + 15 * 60) =
      "2024-01-04 02:15:00" ∧
    ("02:15 3" : String) ≠ "2024-01-04 02:15:00" :=
  ⟨by decide, by decide, by decide⟩

/-! ## Claim C2 -/

/-- C2 counterexample: "1:2 x 3" does not match the "HH:MM D" shape (it has
three whitespace tokens, not two), yet the code does not return it
unchanged — it parses hour/minute from the first token, the day from the
third, ignores the middle token, and renders an absolute timestamp. -/
theorem C2_counterexample :
    (pySplitWs "1:2 x 3").length = 3 ∧
    format_relative_timestamp "1:2 x 3" 0 = some "1970-01-04 01:02:00" ∧
    format_relative_timestamp "1:2 x 3" 0 ≠ some "1:2 x 3" :=
  ⟨by decide, by decide, by decide⟩

/-- C2 (amended): for every encoded string on which the source's parse
chain fails — token count other than three, first token not a colon-joined
pair of integers, or third token not an integer; in particular every
two-token "HH:MM D" string, "garbage", "1:2:3 x" and the empty string —
the function does not raise and returns the input unchanged, verbatim. -/
theorem C2_fallback (ts : String) (start_time : Int)
    (h : relFields ts = none) :
    format_relative_timestamp ts start_time = some ts := by
  unfold format_relative_timestamp
  rw [h]

/-- C2 witness: the fallback theorem applied at the malformed encoding
"garbage". -/
theorem C2_fallback_witness :
    relFields "garbage" = none ∧
    format_relative_timestamp "garbage" 0 = some "garbage" :=
  ⟨by decide, C2_fallback "garbage" 0 (by decide)⟩

/-! ## Claim C3 -/

/-- C3 counterexample: launching with an empty configuration does not fail
before process creation — `start_scan` spawns the worker unconditionally
and reports success even when `sf.opts` is empty. -/
theorem C3_counterexample :
    (start_scan "scan-x" "example.com" "id-1" classifyDomain []).spawns.length = 1 ∧
    (start_scan "scan-x" "example.com" "id-1" classifyDomain []).result =
      Except.ok "id-1" :=
  ⟨rfl, rfl⟩

/-- C3 (amended): with an empty configuration the launch still creates the
worker process (exactly one spawn) and the request succeeds; the
empty-configuration failure happens inside the spawned worker, whose entry
point raises `ValueError("globalOpts is empty")` before running any
module. -/
theorem C3_amended (scanname scantarget scanId : String)
    (targetTypeFromString : String → Option String) :
    (start_scan scanname scantarget scanId targetTypeFromString []).spawns.length = 1 ∧
    (start_scan scanname scantarget scanId targetTypeFromString []).result =
      Except.ok scanId ∧
    startSpiderFootScanner scanId scanname scantarget
        (targetTypeFromString scantarget) [] [] =
      ([], some (PyExc.valueError "globalOpts is empty")) :=
  ⟨rfl, rfl, rfl⟩

/-! ## Claim C4 -/

/-- C4 counterexample: aborting a `FINISHED` scan does fail, but not with
the invalid-state (4xx) error the claim names: the handler's own
`HTTPException(400, "Scan is not running.")` is swallowed by its
`except Exception` clause and re-raised as a 500. -/
theorem C4_counterexample :
    (stop_scan "scan-4" scanFinished).result =
      Except.error { status_code := 500, detail := "400: Scan is not running." } ∧
    isClientError (stop_scan "scan-4" scanFinished).result = false :=
  ⟨rfl, rfl⟩

/-- C4 (amended): aborting a scan in `FINISHED`, `ABORTED` or
`ERROR-FAILED` performs no store write (the record is untouched) and fails —
with a 500 error wrapping the internal 400 "Scan is not running."
rejection rather than with a 4xx invalid-state response. -/
theorem C4_amended (id : String) (scan : ScanTuple)
    (h : scan.status ∈ (["FINISHED", "ABORTED", "ERROR-FAILED"] : List String)) :
    (stop_scan id scan).writes = [] ∧
    (stop_scan id scan).result =
      Except.error { status_code := 500, detail := "400: Scan is not running." } := by
  have hb : stop_scan_body id scan =
      { writes := [],
        result := Except.error (PyExc.http 400 "Scan is not running.") } := by
    unfold stop_scan_body
    rw [if_pos h]
  unfold stop_scan
  rw [hb]
  exact ⟨rfl, rfl⟩

/-- C4 witness: the amended theorem applied to a concrete `ABORTED` scan. -/
theorem C4_witness :
    (scanAborted.status ∈ (["FINISHED", "ABORTED", "ERROR-FAILED"] : List String)) ∧
    ((stop_scan "scan-w4" scanAborted).writes = [] ∧
      (stop_scan "scan-w4" scanAborted).result =
        Except.error { status_code := 500, detail := "400: Scan is not running." }) :=
  ⟨by decide, C4_amended "scan-w4" scanAborted (by decide)⟩

/-! ## Claim C5 -/

/-- C5 counterexample: aborting a `RUNNING` scan performs exactly one store
write, `scanInstanceSet(id, status="ABORTED")`, which carries no `ended`
timestamp — `endedAt` is not stamped, contrary to the claim. -/
theorem C5_counterexample :
    (stop_scan "scan-5" scanRunning).writes =
      [{ scanId := "scan-5", started := none, ended := none,
         status := some "ABORTED" }] ∧
    stampsEnded (stop_scan "scan-5" scanRunning).writes = false :=
  ⟨rfl, rfl⟩

/-- C5 (amended): aborting a scan in `CREATED`, `STARTED` or `RUNNING` sets
the status to `ABORTED` through a single store write and reports success,
but stamps no `endedAt` timestamp: the one write passes `ended=None`. -/
theorem C5_amended (id : String) (scan : ScanTuple)
    (h : scan.status ∈ (["CREATED", "STARTED", "RUNNING"] : List String)) :
    (stop_scan id scan).writes =
      [{ scanId := id, started := none, ended := none,
         status := some "ABORTED" }] ∧
    stampsEnded (stop_scan id scan).writes = false ∧
    (stop_scan id scan).result = Except.ok "Scan aborted successfully" := by
  have hterm : scan.status ∉ (["FINISHED", "ABORTED", "ERROR-FAILED"] : List String) := by
    simp only [List.mem_cons, List.not_mem_nil, or_false] at h
    rcases h with h | h | h <;> rw [h] <;> decide
  have hb : stop_scan_body id scan =
      { writes := [{ scanId := id, started := none, ended := none,
                     status := some "ABORTED" }],
        result := Except.ok "Scan aborted successfully" } := by
    unfold stop_scan_body
    rw [if_neg hterm]
  unfold stop_scan
  rw [hb]
  exact ⟨rfl, rfl, rfl⟩

/-- C5 witness: the amended theorem applied to a concrete `RUNNING` scan. -/
theorem C5_witness :
    (scanRunning.status ∈ (["CREATED", "STARTED", "RUNNING"] : List String)) ∧
    ((stop_scan "scan-w5" scanRunning).writes =
        [{ scanId := "scan-w5", started := none, ended := none,
           status := some "ABORTED" }] ∧
      stampsEnded (stop_scan "scan-w5" scanRunning).writes = false ∧
      (stop_scan "scan-w5" scanRunning).result =
        Except.ok "Scan aborted successfully") :=
  ⟨by decide, C5_amended "scan-w5" scanRunning (by decide)⟩

/-! ## Claim C6 -/

/-- C6 counterexample: when the external classifier cannot determine a
target type, `start_scan` neither fails nor skips persistence — it creates
the scan record and returns the scan id. -/
theorem C6_counterexample :
    (start_scan "scan-z" "%%%" "id-3" classifyNone []).creates.length = 1 ∧
    (start_scan "scan-z" "%%%" "id-3" classifyNone []).result =
      Except.ok "id-3" :=
  ⟨rfl, rfl⟩

/-- C6 (amended): when classification cannot determine a type,
`start_scan` does not validate the result: it persists the scan record via
`scanInstanceCreate`, spawns the worker with `targetType = None`, and
returns the scan id as a success. -/
theorem C6_amended (scanname scantarget scanId : String)
    (targetTypeFromString : String → Option String)
    (sfOpts : List (String × String))
    (h : targetTypeFromString scantarget = none) :
    (start_scan scanname scantarget scanId targetTypeFromString sfOpts).creates =
      [(scanId, scanname, scantarget)] ∧
    (start_scan scanname scantarget scanId targetTypeFromString sfOpts).result =
      Except.ok scanId ∧
    (start_scan scanname scantarget scanId targetTypeFromString sfOpts).spawns =
      [{ scanId := scanId, scanName := scanname, scanTarget := scantarget,
         targetType := none, moduleList := [], globalOpts := sfOpts }] := by
  refine ⟨rfl, rfl, ?_⟩
  unfold start_scan
  rw [h]

/-- C6 witness: the amended theorem applied to a classifier that determines
no type. -/
theorem C6_witness :
    classifyNone "no-type-target" = none ∧
    ((start_scan "scan-y" "no-type-target" "id-2" classifyNone []).creates =
        [("id-2", "scan-y", "no-type-target")] ∧
      (start_scan "scan-y" "no-type-target" "id-2" classifyNone []).result =
        Except.ok "id-2" ∧
      (start_scan "scan-y" "no-type-target" "id-2" classifyNone []).spawns =
        [{ scanId := "id-2", scanName := "scan-y", scanTarget := "no-type-target",
           targetType := none, moduleList := [], globalOpts := [] }]) :=
  ⟨rfl, C6_amended "scan-y" "no-type-target" "id-2" classifyNone [] rfl⟩

/-! ## Claim C7 -/

/-- C7: the handler raises the invalid-state rejection as
`HTTPException(400, "Scan is not running.")`, but its own
`except Exception` clause catches it and re-raises
`HTTPException(500, str(e))`, so the delivered transport error is in the
5xx class — the 4xx error kind is remapped to 5xx on its way out,
contradicting the claimed propagation rule. -/
theorem C7_remap_eval :
    (stop_scan_body "scan-7" scanErrorFailed).result =
      Except.error (PyExc.http 400 "Scan is not running.") ∧
    (stop_scan "scan-7" scanErrorFailed).result =
      Except.error { status_code := 500, detail := "400: Scan is not running." } ∧
    isClientError (stop_scan "scan-7" scanErrorFailed).result = false :=
  ⟨rfl, rfl, rfl⟩

/-! ## Claim C8 -/

/-- C8: every worker spawned by `start_scan` is handed the literal empty
module list, and the worker entry point run on an empty module list
executes zero modules (its trace of run modules is empty), whatever the
options and whether or not the empty-options check fires first. -/
theorem C8_no_modules (scanname scantarget scanId : String)
    (targetTypeFromString : String → Option String)
    (sfOpts : List (String × String)) :
    ((start_scan scanname scantarget scanId targetTypeFromString sfOpts).spawns.all
        (fun sp => sp.moduleList.isEmpty)) = true ∧
    (startSpiderFootScanner scanId scanname scantarget
        (targetTypeFromString scantarget) [] sfOpts).1 = [] := by
  refine ⟨rfl, ?_⟩
  cases sfOpts with
  | nil => rfl
  | cons p ps => rfl

/-! ## Claim C9 -/

/-- C9 helper: a row with at least 12 entries is formatted to the record
whose fields are exactly the row's entries 0 through 11. -/
theorem formatEventRow_spec {α : Type} (r : List α) (h : 12 ≤ r.length) :
    ∃ v, formatEventRow r = some v ∧ rowView r v := by
  rcases r with _ | ⟨x0, _ | ⟨x1, _ | ⟨x2, _ | ⟨x3, _ | ⟨x4, _ | ⟨x5, _ | ⟨x6,
    _ | ⟨x7, _ | ⟨x8, _ | ⟨x9, _ | ⟨x10, _ | ⟨x11, rest⟩⟩⟩⟩⟩⟩⟩⟩⟩⟩⟩⟩ <;>
    first
      | (simp only [List.length_nil, List.length_cons] at h; omega)
      | (refine ⟨⟨x0, x1, x2, x3, x4, x5, x6, x7, x8, x9, x10, x11⟩, ?_, ?_⟩ <;>
          simp [formatEventRow, rowView])

/-- C9: on rows of at least 12 fields the formatter succeeds, and the
output has the same length and order as the input with each record's
twelve named fields equal, position for position, to the row's entries 0
through 11 (`List.Forall₂ rowView` is the positional field-for-field
relation). -/
theorem C9_projection {α : Type} (rows : List (List α))
    (h : ∀ r ∈ rows, 12 ≤ r.length) :
    ∃ l, scan_event_results rows = some l ∧ l.length = rows.length ∧
      List.Forall₂ rowView rows l := by
  induction rows with
  | nil => exact ⟨[], rfl, rfl, List.Forall₂.nil⟩
  | cons r rows ih =>
    obtain ⟨v, hv, hview⟩ := formatEventRow_spec r (h r (List.mem_cons_self r rows))
    obtain ⟨l, hl, hlen, hall⟩ := ih (fun s hs => h s (List.mem_cons_of_mem r hs))
    refine ⟨v :: l, ?_, by simp [hlen], List.Forall₂.cons hview hall⟩
    unfold scan_event_results at hl ⊢
    rw [List.mapM_cons, hv, hl]
    rfl

/-- C9 witness: the projection theorem applied to a single concrete
12-field row. -/
theorem C9_witness :
    (∀ r ∈ [sampleRow], 12 ≤ r.length) ∧
    (∃ l, scan_event_results [sampleRow] = some l ∧
      l.length = [sampleRow].length ∧ List.Forall₂ rowView [sampleRow] l) :=
  ⟨by decide, C9_projection [sampleRow] (by decide)⟩

/-! ## Claim C10 -/

/-- C10: formatting the empty result-row list yields the empty list, and
formatting the empty history list yields the empty list for every scan
start time; neither raises. -/
theorem C10_empty :
    scan_event_results ([] : List (List String)) = some [] ∧
    ∀ start_time : Int, scan_history [] start_time = some [] :=
  ⟨rfl, fun _ => rfl⟩
